import Mathlib

/-!
Shallow embedding of the pyutil library (src/pyutil/option.py, result.py,
try.py) and verification of its specification claims.

Modelling conventions:
* Python exceptions are the type `PyExc`; an operation that may raise
  returns `Except PyExc _`, with `Except.error e` standing for `raise e`.
* Python values relevant to the library form the universe `PyVal`; the
  wrapper objects (`POption` for option.Option, `PResult` for
  result.Result, `PTry` for try.Try) appear inside `PyVal` so that
  `isinstance` tests and nesting (needed by `flatten`) are expressible.
* Caller-supplied predicates and functions are fallible:
  `PyVal → Except PyExc _`, so a throwing callback is representable.
* Payload equality and hashing are parameters (`eqv`, `hv`, ...): the
  Python code delegates to the payloads' own `==` and `hash`, so theorems
  about `__eq__`/`__hash__` are stated for an arbitrary payload equality
  and hash, with consistency of the payloads assumed where the claim
  assumes it.
-/

/-- Python exception objects as the library observes them: `TypeError` and
`ValueError` (the two kinds the library itself raises, each with its
message) plus arbitrary user exception classes. -/
inductive PyExc : Type where
  | typeError (msg : String)
  | valueError (msg : String)
  | userExc (name : String) (msg : String)

mutual

/-- The universe of Python values handled by the library: `None`, booleans,
integers, strings, exception objects, and the three wrapper types. -/
inductive PyVal : Type where
  | pynone : PyVal
  | bool (b : Bool) : PyVal
  | int (n : Int) : PyVal
  | str (s : String) : PyVal
  | exc (e : PyExc) : PyVal
  | opt (o : POption) : PyVal
  | res (r : PResult) : PyVal
  | attempt (t : PTry) : PyVal

/-- option.py: the `Option` hierarchy, a closed sum of its two concrete
subclasses `Just` (stores one value, lines 130-147) and `Nothing`
(lines 150-164). -/
inductive POption : Type where
  | Just (value : PyVal) : POption
  | Nothing : POption

/-- result.py: the `Result` hierarchy, a closed sum of `Success` (stores
the result, lines 153-174) and `Failure` (stores the error, lines
177-200; the constructor validation that the stored error is an
`Exception` is the function `resultFailure` below, so a `Failure` always
holds a `PyExc`). -/
inductive PResult : Type where
  | Success (result : PyVal) : PResult
  | Failure (error : PyExc) : PResult

/-- try.py: instances of the `Try` hierarchy. `Success` is the concrete
class at lines 123-141. try.py has no reachable `Failure` class: at line
144 `Failure` is a plain function (see `tryFailure` below) whose body —
an `__init__` validating the error and properties `failed = True`,
`error` returning the stored exception, `result` raising it (lines
149-164) — is never executed. The `Failure` variant here embeds that
written-but-dead body: an instance holding one exception with
`failed = True`, which is what the `Try` base-class methods assume a
failed instance looks like. -/
inductive PTry : Type where
  | Success (result : PyVal) : PTry
  | Failure (error : PyExc) : PTry

end

/-- option.py lines 21-27 and the concrete overrides (lines 138-140,
155-157): `empty` is True exactly on `Nothing`. -/
def POption.empty : POption → Bool
  | POption.Just _ => false
  | POption.Nothing => true

/-- option.py lines 38-43: `defined` is `not self.empty`. -/
def POption.defined (o : POption) : Bool := !o.empty

/-- option.py `value` property: `Just.value` (lines 142-144) returns the
stored value; `Nothing.value` (lines 159-161) raises
`ValueError('Cannot get value from Nothing')` — the spec's
EmptyValueError. -/
def POption.value : POption → Except PyExc PyVal
  | POption.Just v => Except.ok v
  | POption.Nothing => Except.error (PyExc.valueError "Cannot get value from Nothing")

/-- option.py lines 45-52, `Option.filter`: if not defined, return self;
otherwise return self when the predicate accepts the value and a fresh
`Nothing()` when it rejects it. A throwing predicate propagates (it is
only called on a defined option). -/
def POption.filter (o : POption) (p : PyVal → Except PyExc Bool) : Except PyExc POption :=
  match o with
  | POption.Nothing => Except.ok POption.Nothing
  | POption.Just v => do
      let b ← p v
      pure (if b then POption.Just v else POption.Nothing)

/-- option.py lines 54-58, `Option.flat_map`: `f(self.value)` if defined,
else self. `f` is only called on a defined option. -/
def POption.flat_map (o : POption) (f : PyVal → Except PyExc POption) : Except PyExc POption :=
  match o with
  | POption.Nothing => Except.ok POption.Nothing
  | POption.Just v => f v

/-- option.py lines 80-85, `Option.map`: `Just(f(self.value))` if defined,
else self. -/
def POption.map (o : POption) (f : PyVal → Except PyExc PyVal) : Except PyExc POption :=
  match o with
  | POption.Nothing => Except.ok POption.Nothing
  | POption.Just v => do
      let w ← f v
      pure (POption.Just w)

/-- The `isinstance(v, Option)` test used by option.py line 64. -/
def PyVal.isOption : PyVal → Bool
  | PyVal.opt _ => true
  | _ => false

/-- option.py lines 60-64, `Option.flatten`:
`self.value.flatten() if self.defined and isinstance(self.value, Option)
else self`. Recurses while the option is a `Just` holding another
option; never raises. -/
def POption.flatten : POption → POption
  | POption.Just (PyVal.opt o) => POption.flatten o
  | o => o

/-- option.py lines 100-112, `Option.__eq__`, for two operands that are
both Options (the `isinstance(other, Option)` gate at line 106 passes;
a non-Option operand compares unequal). Unequal `empty` flags give
False; two `Nothing`s give True; two `Just`s delegate to the payloads'
own `==`, here the parameter `eqv`. -/
def POption.eqWith (eqv : PyVal → PyVal → Bool) : POption → POption → Bool
  | POption.Just v, POption.Just w => eqv v w
  | POption.Nothing, POption.Nothing => true
  | _, _ => false

/-- option.py lines 120-127, `Option.__hash__`: hash of the stored value
(the parameter `hv`) when defined, the constant 0 for `Nothing`. -/
def POption.hashWith (hv : PyVal → Int) : POption → Int
  | POption.Just v => hv v
  | POption.Nothing => 0

/-- result.py lines 24-30 with the overrides (lines 161-163, 187-189):
`failed` is True exactly on `Failure`. -/
def PResult.failed : PResult → Bool
  | PResult.Success _ => false
  | PResult.Failure _ => true

/-- result.py lines 50-55: `success` is `not self.failed`. -/
def PResult.success (r : PResult) : Bool := !r.failed

/-- result.py `result` property: `Success.result` (lines 169-171) returns
the stored result; `Failure.result` (lines 195-197) is
`raise self.__error` — it raises exactly the stored exception object,
not a copy and not a wrapper. -/
def PResult.result : PResult → Except PyExc PyVal
  | PResult.Success v => Except.ok v
  | PResult.Failure e => Except.error e

/-- result.py `error` property: `Failure.error` (lines 191-193) returns
the stored exception; `Success.error` (lines 165-167) raises the generic
`TypeError('Cannot retrieve error from a Success')` — the spec's
WrongVariantError. -/
def PResult.error : PResult → Except PyExc PyVal
  | PResult.Success _ => Except.error (PyExc.typeError "Cannot retrieve error from a Success")
  | PResult.Failure e => Except.ok (PyVal.exc e)

/-- The exception `ValueError('Predicate failed')` created by
`Result.filter` / `Try.filter` (result.py line 61, try.py line 60) —
the spec's PredicateFailedError. -/
def predicateFailedError : PyExc := PyExc.valueError "Predicate failed"

/-- result.py lines 57-61, `Result.filter`:
`self if self.success and p(self.result) else
Failure(ValueError('Predicate failed'))`. Because `and` short-circuits,
the predicate is never called on a `Failure`; on a `Success` a throwing
predicate propagates. In every non-(success-and-accepted) case the
result is a fresh `Failure` holding a fresh PredicateFailedError. -/
def PResult.filter (r : PResult) (p : PyVal → Except PyExc Bool) : Except PyExc PResult :=
  match r with
  | PResult.Failure _ => Except.ok (PResult.Failure predicateFailedError)
  | PResult.Success v => do
      let b ← p v
      pure (if b then PResult.Success v else PResult.Failure predicateFailedError)

/-- result.py lines 63-67, `Result.flat_map`: `f(self.result)` if
success, else self. -/
def PResult.flat_map (r : PResult) (f : PyVal → Except PyExc PResult) : Except PyExc PResult :=
  match r with
  | PResult.Failure e => Except.ok (PResult.Failure e)
  | PResult.Success v => f v

/-- result.py lines 89-94, `Result.map`: `Success(f(self.result))` if
success, else self. -/
def PResult.map (r : PResult) (f : PyVal → Except PyExc PyVal) : Except PyExc PResult :=
  match r with
  | PResult.Failure e => Except.ok (PResult.Failure e)
  | PResult.Success v => do
      let w ← f v
      pure (PResult.Success w)

/-- result.py lines 108-114, `Result.to_option`:
`option.Just(self.result) if self.success else option.Nothing()`. -/
def PResult.to_option : PResult → POption
  | PResult.Success v => POption.Just v
  | PResult.Failure _ => POption.Nothing

/-- result.py lines 123-135, `Result.__eq__`, for two operands that are
both Results (the `isinstance(other, Result)` gate at line 129 passes).
Unequal `failed` flags give False; otherwise the stored results (both
successes, payload `==` is `eqv`) or the stored errors (both failures,
payload `==` is `eqe`) are compared. -/
def PResult.eqWith (eqv : PyVal → PyVal → Bool) (eqe : PyExc → PyExc → Bool) :
    PResult → PResult → Bool
  | PResult.Success v, PResult.Success w => eqv v w
  | PResult.Failure d, PResult.Failure e => eqe d e
  | _, _ => false

/-- result.py lines 143-150, `Result.__hash__`: hash of the stored result
on a `Success`, hash of the stored error on a `Failure`. -/
def PResult.hashWith (hv : PyVal → Int) (he : PyExc → Int) : PResult → Int
  | PResult.Success v => hv v
  | PResult.Failure e => he e

/-- result.py lines 182-185, `Failure.__init__` as a callable:
`Failure(error)` raises `TypeError('Failure must be created with an
Exception')` unless `isinstance(error, Exception)`, and otherwise
produces a `Failure` object storing exactly that exception. -/
def resultFailure (error : PyVal) : Except PyExc PyVal :=
  match error with
  | PyVal.exc e => Except.ok (PyVal.res (PResult.Failure e))
  | _ => Except.error (PyExc.typeError "Failure must be created with an Exception")

/-- try.py lines 144-164: `Failure` is a plain function, not a class. Its
body only defines an inner `__init__` and three inner properties — none
of which is ever called — and then falls off the end, so for every
argument the call returns `None` and never raises. -/
def tryFailure (_error : PyVal) : Except PyExc PyVal :=
  Except.ok PyVal.pynone

/-- try.py lines 26-31 with the overrides: `failed` is False on the
concrete `Success` class (lines 131-133) and True on the dead-body
failure instances (lines 154-156). -/
def PTry.failed : PTry → Bool
  | PTry.Success _ => false
  | PTry.Failure _ => true

/-- try.py lines 49-54: `success` is `not self.failed`. -/
def PTry.success (t : PTry) : Bool := !t.failed

/-- try.py lines 56-60, `Try.filter`:
`self if self.success and p(self.result) else
Failure(ValueError('Predicate failed'))` — but here `Failure` is the
broken module-level function, so every non-(success-and-accepted) case
returns `None` instead of a failure object. The result type is `PyVal`
because the method can return either a `Try` or `None`. -/
def PTry.filter (t : PTry) (p : PyVal → Except PyExc Bool) : Except PyExc PyVal :=
  match t with
  | PTry.Failure _ => Except.ok PyVal.pynone
  | PTry.Success v => do
      let b ← p v
      pure (if b then PyVal.attempt (PTry.Success v) else PyVal.pynone)

/-- try.py lines 107-113, `Try.to_option`:
`option.Just(self.result) if self.success else option.Nothing()`. -/
def PTry.to_option : PTry → POption
  | PTry.Success v => POption.Just v
  | PTry.Failure _ => POption.Nothing

/-- A `Try` instance as Python's default equality sees it: try.py defines
no `__eq__`, `__ne__` or `__hash__`, so `==` on `Try` objects is
`object.__eq__`, which compares object identity. An instance is
modelled as its identity (a distinct number per allocated object)
together with its contents. -/
structure TryObj : Type where
  ident : Nat
  val : PTry

/-- Python `==` on two `Try` instances: with no `__eq__` defined anywhere
in try.py, `a == b` is `a is b`, i.e. identity comparison. -/
def tryEq (a b : TryObj) : Bool := a.ident == b.ident

/-- A chain of `n` `Just`-of-option wrappers around a base option: the
"arbitrarily nested Present-wrapped-Present" chains of the spec. -/
def nestOpt : Nat → POption → POption
  | 0, o => o
  | Nat.succ n, o => POption.Just (PyVal.opt (nestOpt n o))

/-- C1: in result.py, constructing `Failure` with a non-exception (the
integer 5) raises the construction `TypeError` and constructing it with
an exception stores exactly that exception; but in try.py, `Failure` is
a function that returns `None` for every argument — it neither raises on
the non-exception input 5 nor produces a failure wrapper for an
exception input — so the claim's Attempt half fails on the code. -/
theorem failure_construction_c1 :
    resultFailure (PyVal.int 5)
      = Except.error (PyExc.typeError "Failure must be created with an Exception")
  ∧ resultFailure (PyVal.exc (PyExc.valueError "boom"))
      = Except.ok (PyVal.res (PResult.Failure (PyExc.valueError "boom")))
  ∧ tryFailure (PyVal.int 5) = Except.ok PyVal.pynone
  ∧ tryFailure (PyVal.exc (PyExc.valueError "boom")) = Except.ok PyVal.pynone :=
  ⟨rfl, rfl, rfl, rfl⟩

/-- C2: the Attempt (try.py) and Outcome (result.py) implementations do
not have identical contracts: at the same inputs, failure construction
returns `None` in try.py but a `Failure` wrapper in result.py, and
`filter` on `Success(5)` with a rejecting predicate returns `None` in
try.py but `Failure(ValueError('Predicate failed'))` in result.py. -/
theorem attempt_outcome_divergence_c2 :
    tryFailure (PyVal.exc (PyExc.valueError "boom")) = Except.ok PyVal.pynone
  ∧ resultFailure (PyVal.exc (PyExc.valueError "boom"))
      = Except.ok (PyVal.res (PResult.Failure (PyExc.valueError "boom")))
  ∧ PTry.filter (PTry.Success (PyVal.int 5)) (fun _ => Except.ok false)
      = Except.ok PyVal.pynone
  ∧ PResult.filter (PResult.Success (PyVal.int 5)) (fun _ => Except.ok false)
      = Except.ok (PResult.Failure predicateFailedError) :=
  ⟨rfl, rfl, rfl, rfl⟩

/-- C3: `Result.filter` returns the receiver when it is a `Success` whose
value the predicate accepts; when the predicate rejects the value, and
also when the receiver is already a `Failure` (whatever error it
stores — the predicate is not even called), the result is
`Failure(PredicateFailedError)`, so an existing error is discarded and
replaced. -/
theorem result_filter_spec_c3 :
    (∀ (v : PyVal) (p : PyVal → Except PyExc Bool), p v = Except.ok true →
      PResult.filter (PResult.Success v) p = Except.ok (PResult.Success v))
  ∧ (∀ (v : PyVal) (p : PyVal → Except PyExc Bool), p v = Except.ok false →
      PResult.filter (PResult.Success v) p
        = Except.ok (PResult.Failure predicateFailedError))
  ∧ (∀ (e : PyExc) (p : PyVal → Except PyExc Bool),
      PResult.filter (PResult.Failure e) p
        = Except.ok (PResult.Failure predicateFailedError)) := by
  refine ⟨?_, ?_, fun e p => rfl⟩
  · intro v p h
    simp [PResult.filter, h]
  · intro v p h
    simp [PResult.filter, h]

/-- C3 witness: the accepted-success case at `Success(5)` with the
constantly-true predicate. -/
theorem result_filter_spec_c3_witness :
    PResult.filter (PResult.Success (PyVal.int 5)) (fun _ => Except.ok true)
      = Except.ok (PResult.Success (PyVal.int 5)) :=
  result_filter_spec_c3.1 (PyVal.int 5) (fun _ => Except.ok true) rfl

/-- C4 (amended): Outcome equality is structural — two Results compare
equal exactly when both are `Success` with payload-equal values or both
are `Failure` with payload-equal errors, so a `Success` and a `Failure`
are never equal; but Attempt (try.py) defines no `__eq__`, so `==` on
`Try` instances is object identity, holding exactly when the two
operands are the same object. -/
theorem result_eq_structural_try_eq_identity_c4 :
    (∀ (eqv : PyVal → PyVal → Bool) (eqe : PyExc → PyExc → Bool) (a b : PResult),
      PResult.eqWith eqv eqe a b = true ↔
        ((∃ v w, a = PResult.Success v ∧ b = PResult.Success w ∧ eqv v w = true) ∨
         (∃ d e, a = PResult.Failure d ∧ b = PResult.Failure e ∧ eqe d e = true)))
  ∧ (∀ a b : TryObj, tryEq a b = true ↔ a.ident = b.ident) := by
  constructor
  · intro eqv eqe a b
    cases a <;> cases b <;> simp [PResult.eqWith]
  · intro a b
    simp [tryEq]

/-- C4 counterexample: two separately constructed `Try` Success objects
(distinct identities 0 and 1) both hold the value 1, yet `==` on them is
False — refuting, for Attempt, the claim that two Succeeded values with
equal contents are equal. -/
theorem try_eq_counterexample_c4 :
    (TryObj.mk 0 (PTry.Success (PyVal.int 1))).val = PTry.Success (PyVal.int 1)
  ∧ (TryObj.mk 1 (PTry.Success (PyVal.int 1))).val = PTry.Success (PyVal.int 1)
  ∧ tryEq (TryObj.mk 0 (PTry.Success (PyVal.int 1)))
      (TryObj.mk 1 (PTry.Success (PyVal.int 1))) = false :=
  ⟨rfl, rfl, rfl⟩

/-- C5: the `result` accessor on `Failure(e)` raises exactly the stored
exception `e` itself, while the `error` accessor on a `Success` raises
the distinct generic wrong-variant error
`TypeError('Cannot retrieve error from a Success')`. -/
theorem result_accessor_asymmetry_c5 :
    (∀ e : PyExc, PResult.result (PResult.Failure e) = Except.error e)
  ∧ (∀ v : PyVal, PResult.error (PResult.Success v)
      = Except.error (PyExc.typeError "Cannot retrieve error from a Success")) :=
  ⟨fun _ => rfl, fun _ => rfl⟩

/-- C6: `Option.flatten` on a chain of `n` nested `Just`-of-option
wrappers returns the innermost non-option value rewrapped in `Just`, or
`Nothing` when the chain bottoms out at `Nothing`; on `Nothing` itself
and on a `Just` holding a non-option value it returns the receiver
unchanged. Termination is by construction (the definition is total). -/
theorem option_flatten_spec_c6 :
    (∀ (n : Nat) (v : PyVal), PyVal.isOption v = false →
      POption.flatten (nestOpt n (POption.Just v)) = POption.Just v)
  ∧ (∀ n : Nat, POption.flatten (nestOpt n POption.Nothing) = POption.Nothing)
  ∧ POption.flatten POption.Nothing = POption.Nothing
  ∧ (∀ v : PyVal, PyVal.isOption v = false →
      POption.flatten (POption.Just v) = POption.Just v) := by
  have base : ∀ v : PyVal, PyVal.isOption v = false →
      POption.flatten (POption.Just v) = POption.Just v := by
    intro v h
    cases v with
    | opt o => simp [PyVal.isOption] at h
    | pynone => simp [POption.flatten]
    | bool b => simp [POption.flatten]
    | int n => simp [POption.flatten]
    | str s => simp [POption.flatten]
    | exc e => simp [POption.flatten]
    | res r => simp [POption.flatten]
    | attempt t => simp [POption.flatten]
  have main : ∀ (n : Nat) (o : POption),
      POption.flatten (nestOpt n o) = POption.flatten o := by
    intro n
    induction n with
    | zero => intro o; rfl
    | succ m ih =>
      intro o
      have h1 : nestOpt (m + 1) o = POption.Just (PyVal.opt (nestOpt m o)) := rfl
      rw [h1]
      have h2 : POption.flatten (POption.Just (PyVal.opt (nestOpt m o)))
          = POption.flatten (nestOpt m o) := by
        simp [POption.flatten]
      rw [h2, ih o]
  have hnothing : POption.flatten POption.Nothing = POption.Nothing := by
    simp [POption.flatten]
  refine ⟨?_, ?_, hnothing, base⟩
  · intro n v h
    rw [main n (POption.Just v), base v h]
  · intro n
    rw [main n POption.Nothing]
    exact hnothing

/-- C6 witness: a depth-2 chain around the integer 7 flattens to
`Just 7`. -/
theorem option_flatten_spec_c6_witness :
    POption.flatten (nestOpt 2 (POption.Just (PyVal.int 7)))
      = POption.Just (PyVal.int 7) :=
  option_flatten_spec_c6.1 2 (PyVal.int 7) rfl

/-- C7: converting to an option maps a `Success`/`Succeeded` value to
`Just` of that value and a `Failure` to `Nothing` (the error is
discarded), for both result.py's `Result` and try.py's `Try`. -/
theorem to_option_spec_c7 :
    (∀ v : PyVal, PResult.to_option (PResult.Success v) = POption.Just v)
  ∧ (∀ e : PyExc, PResult.to_option (PResult.Failure e) = POption.Nothing)
  ∧ (∀ v : PyVal, PTry.to_option (PTry.Success v) = POption.Just v)
  ∧ (∀ e : PyExc, PTry.to_option (PTry.Failure e) = POption.Nothing) :=
  ⟨fun _ => rfl, fun _ => rfl, fun _ => rfl, fun _ => rfl⟩

/-- C8: the `value` accessor on `Just(v)` returns exactly `v`, and on
`Nothing` raises `ValueError('Cannot get value from Nothing')` (the
spec's EmptyValueError). -/
theorem option_value_spec_c8 :
    (∀ v : PyVal, POption.value (POption.Just v) = Except.ok v)
  ∧ POption.value POption.Nothing
      = Except.error (PyExc.valueError "Cannot get value from Nothing") :=
  ⟨fun _ => rfl, rfl⟩

/-- C9: the wrappers' hashing is consistent with their equality. For any
payload equality and hash functions that are themselves consistent, two
equal options have equal hashes (`Nothing` hashes to the constant 0 and
`Just v` to the hash of `v`), and two equal results have equal hashes
(`Success` hashes to the hash of its value, `Failure` to the hash of its
error). -/
theorem hash_consistent_with_eq_c9 :
    ∀ (eqv : PyVal → PyVal → Bool) (hv : PyVal → Int)
      (eqe : PyExc → PyExc → Bool) (he : PyExc → Int),
      (∀ a b : PyVal, eqv a b = true → hv a = hv b) →
      (∀ a b : PyExc, eqe a b = true → he a = he b) →
      (∀ o p : POption, POption.eqWith eqv o p = true →
          POption.hashWith hv o = POption.hashWith hv p)
      ∧ (∀ r s : PResult, PResult.eqWith eqv eqe r s = true →
          PResult.hashWith hv he r = PResult.hashWith hv he s)
      ∧ POption.hashWith hv POption.Nothing = 0
      ∧ (∀ v : PyVal, POption.hashWith hv (POption.Just v) = hv v)
      ∧ (∀ v : PyVal, PResult.hashWith hv he (PResult.Success v) = hv v)
      ∧ (∀ e : PyExc, PResult.hashWith hv he (PResult.Failure e) = he e) := by
  intro eqv hv eqe he hcv hce
  refine ⟨?_, ?_, rfl, fun _ => rfl, fun _ => rfl, fun _ => rfl⟩
  · intro o p h
    cases o with
    | Nothing =>
      cases p with
      | Nothing => rfl
      | Just w => simp [POption.eqWith] at h
    | Just v =>
      cases p with
      | Nothing => simp [POption.eqWith] at h
      | Just w =>
        have hvw : eqv v w = true := by simpa [POption.eqWith] using h
        simpa [POption.hashWith] using hcv v w hvw
  · intro r s h
    cases r with
    | Success v =>
      cases s with
      | Success w =>
        have hvw : eqv v w = true := by simpa [PResult.eqWith] using h
        simpa [PResult.hashWith] using hcv v w hvw
      | Failure e => simp [PResult.eqWith] at h
    | Failure d =>
      cases s with
      | Success w => simp [PResult.eqWith] at h
      | Failure e =>
        have hde : eqe d e = true := by simpa [PResult.eqWith] using h
        simpa [PResult.hashWith] using hce d e hde

/-- C9 witness: with constantly-true payload equality and a constant
payload hash (both trivially consistent), two equal options get equal
hashes, applied at `Just 3` and `Just 4`. -/
theorem hash_consistent_with_eq_c9_witness :
    POption.hashWith (fun _ => (0 : Int)) (POption.Just (PyVal.int 3))
      = POption.hashWith (fun _ => (0 : Int)) (POption.Just (PyVal.int 4)) :=
  (hash_consistent_with_eq_c9 (fun _ _ => true) (fun _ => (0 : Int))
    (fun _ _ => true) (fun _ => (0 : Int))
    (fun _ _ _ => rfl) (fun _ _ _ => rfl)).1
    (POption.Just (PyVal.int 3)) (POption.Just (PyVal.int 4)) rfl

/-- C10: on the empty or failed variant the caller-supplied callback is
never invoked: `filter`, `map` and `flat_map` on `Nothing` give the same
result for any two callbacks and return the receiver; `filter`, `map`
and `flat_map` on any `Failure` give the same result for any two
callbacks, never propagate a throwing predicate (`filter` on a `Failure`
returns `Failure(PredicateFailedError)` even for a predicate that
raises), and `map`/`flat_map` return the receiver. -/
theorem empty_failed_ignore_callback_c10 :
    (∀ f g : PyVal → Except PyExc Bool,
      POption.filter POption.Nothing f = POption.filter POption.Nothing g)
  ∧ (∀ f : PyVal → Except PyExc Bool,
      POption.filter POption.Nothing f = Except.ok POption.Nothing)
  ∧ (∀ f g : PyVal → Except PyExc PyVal,
      POption.map POption.Nothing f = POption.map POption.Nothing g)
  ∧ (∀ f : PyVal → Except PyExc PyVal,
      POption.map POption.Nothing f = Except.ok POption.Nothing)
  ∧ (∀ f g : PyVal → Except PyExc POption,
      POption.flat_map POption.Nothing f = POption.flat_map POption.Nothing g)
  ∧ (∀ f : PyVal → Except PyExc POption,
      POption.flat_map POption.Nothing f = Except.ok POption.Nothing)
  ∧ (∀ (e : PyExc) (f g : PyVal → Except PyExc Bool),
      PResult.filter (PResult.Failure e) f = PResult.filter (PResult.Failure e) g)
  ∧ (∀ (e : PyExc) (f : PyVal → Except PyExc Bool),
      PResult.filter (PResult.Failure e) f
        = Except.ok (PResult.Failure predicateFailedError))
  ∧ (∀ e x : PyExc,
      PResult.filter (PResult.Failure e) (fun _ => Except.error x)
        = Except.ok (PResult.Failure predicateFailedError))
  ∧ (∀ (e : PyExc) (f g : PyVal → Except PyExc PyVal),
      PResult.map (PResult.Failure e) f = PResult.map (PResult.Failure e) g)
  ∧ (∀ (e : PyExc) (f : PyVal → Except PyExc PyVal),
      PResult.map (PResult.Failure e) f = Except.ok (PResult.Failure e))
  ∧ (∀ (e : PyExc) (f g : PyVal → Except PyExc PResult),
      PResult.flat_map (PResult.Failure e) f = PResult.flat_map (PResult.Failure e) g)
  ∧ (∀ (e : PyExc) (f : PyVal → Except PyExc PResult),
      PResult.flat_map (PResult.Failure e) f = Except.ok (PResult.Failure e)) :=
  ⟨fun _ _ => rfl, fun _ => rfl, fun _ _ => rfl, fun _ => rfl, fun _ _ => rfl,
   fun _ => rfl, fun _ _ _ => rfl, fun _ _ => rfl, fun _ _ => rfl,
   fun _ _ _ => rfl, fun _ _ => rfl, fun _ _ _ => rfl, fun _ _ => rfl⟩
